import Mathlib

/-!
Shallow embedding of `src/plan/executor.rs` (the `PlanExecutor` per-repository
pipeline of there-i-fixed-it).

The executor shells out to git, reads and writes matched files, and talks to a
pull-request provider.  We embed it as pure Lean functions over an explicit
environment `Env` that fixes the outcome of every external interaction:

* each git invocation is an oracle field of `Env` (`Option String`: `some out`
  is a successful run with captured stdout `out`, `none` is a non-zero exit);
* the filesystem is an association list from path to `FileContent`; a file
  whose bytes are not valid UTF-8 is `FileContent.invalid`, which makes
  `read_to_string` fail exactly as in the Rust code;
* the glob crate's answer for a pattern is an `Env` field as well: a list of
  directory entries (each possibly an IO error, mirroring `let entry = entry?`),
  every entry carrying the filesystem kind that `std::path::Path::is_file`
  inspects;
* the provider's `is_pr_open` / `open_pr` answers are `Env` fields.

Every executor method returns the list of external calls it performed (the
`Event` trace, in order) together with an `Except Err` result, and the file
processing stage additionally threads the filesystem state.  Failure of a
stage carries a constructor of `Err` named after the `wrap_err` message the
Rust code attaches at that point.
-/

/-- On-disk content of one file: either text that decodes as UTF-8, or bytes
that do not (on which `tokio::fs::read_to_string` errors). -/
inductive FileContent where
  | utf8 (text : String)
  | invalid
  deriving DecidableEq

/-- The working copy's files, as an association list from path to content. -/
structure FS where
  entries : List (String × FileContent)
  deriving DecidableEq

/-- Read a file: `none` when the path does not exist. -/
def FS.read (fs : FS) (path : String) : Option FileContent :=
  (fs.entries.find? (fun e => e.1 == path)).map (fun e => e.2)

/-- Whole-file overwrite with UTF-8 text, as performed by `fs::write`. -/
def FS.write (fs : FS) (path : String) (text : String) : FS :=
  ⟨(path, FileContent.utf8 text) :: fs.entries⟩

/-- Mirror of the `Repository` struct consumed by the executor. -/
structure Repository where
  name : String
  ssh_url : String
  default_branch : String

/-- Mirror of `FileOperation`: a glob pattern plus the ordered processor
chain; a processor is the pure text transform `Processor::process`. -/
structure FileOperation where
  pattern : String
  processors : List (String → String)

/-- Mirror of the `Plan` fields the executor reads. -/
structure Plan where
  branch_name : String
  git_message : String
  pull_request_title : Option String
  pull_request_body : Option String
  file_operations : List FileOperation

/-- Stage-identifying failures, one per `wrap_err` site (plus the file and
provider error channels propagated by `?`). -/
inductive Err where
  | cloneFailed
  | listBranchFailed
  | resetFailed
  | checkoutDefaultFailed
  | pullFailed
  | checkoutNewFailed
  | logFailed
  | commitFailed
  | pushFailed
  | globPatternFailed
  | globEntryFailed
  | fileReadFailed
  | fileWriteFailed
  | isPrOpenFailed
  | openPrFailed
  deriving DecidableEq

deriving instance DecidableEq for Except

/-- One observable external call of the executor, in the order performed. -/
inductive Event where
  | git (args : List String)
  | fsRead (path : String)
  | fsWrite (path : String) (text : String)
  | isPrOpenCall (repo branch : String)
  | openPrCall (repo base head title : String) (body : Option String)
  deriving DecidableEq

/-- Kind of a path matched by the glob, as seen by the filesystem metadata
that `std::path::Path::is_file` queries. -/
inductive GlobEntryKind where
  | regular
  | directory
  | symlinkToFile
  | symlinkToDir
  | symlinkBroken
  deriving DecidableEq

/-- Semantics of Rust's `Path::is_file` on a matched path: the std
documentation states it traverses symbolic links to query the destination, so a
symlink whose target is a regular file answers `true`, while directories,
symlinks to directories and broken symlinks answer `false`. -/
def GlobEntryKind.is_file : GlobEntryKind → Bool
  | GlobEntryKind.regular => true
  | GlobEntryKind.symlinkToFile => true
  | _ => false

/-- One glob match: the path and its filesystem kind. -/
structure GlobEntry where
  path : String
  kind : GlobEntryKind
  deriving DecidableEq

/-- Answer of `glob::glob` for one pattern: the pattern may be rejected
(`glob(...)?`), and each yielded entry may itself be an IO error
(`let entry = entry?`), modelled as `none`. -/
inductive GlobOutcome where
  | patternError
  | entries (items : List (Option GlobEntry))
  deriving DecidableEq

/-- Environment fixing the outcome of every external interaction of one
`PlanExecutor::process` run. -/
structure Env where
  plan : Plan
  repository : Repository
  repositories_folder : String
  dir_exists : Bool
  fs0 : FS
  git_clone : Option String
  git_show_current : Option String
  git_reset : Option String
  git_checkout_default : Option String
  git_pull : Option String
  git_checkout_new : Option String
  git_log : Option String
  git_commit : Option String
  git_push : Option String
  glob_results : List (String × GlobOutcome)
  write_fails : List String
  pr_open : Option Bool
  pr_create_ok : Bool

/-- Working-copy directory, as computed in `PlanExecutor::new`:
`repositories_folder.join("repos").join(repository.name)`. -/
def Env.directory (env : Env) : String :=
  env.repositories_folder ++ "/repos/" ++ env.repository.name

/-- Result of a traced, fallible step: the external calls made, and the
outcome. -/
abbrev Step (α : Type) : Type := List Event × Except Err α

/-- Return without external calls. -/
def tret {α : Type} (a : α) : Step α := ([], Except.ok a)

/-- Sequencing of traced steps: on failure the remaining step never runs, but
the calls already made stay in the trace. -/
def tseq {α β : Type} (m : Step α) (f : α → Step β) : Step β :=
  match m.2 with
  | Except.error e => (m.1, Except.error e)
  | Except.ok a => (m.1 ++ (f a).1, (f a).2)

/-- Executable model of Rust's `str::trim`: drop whitespace characters from
both ends of the string (structural recursion, unlike `String.trim`, so that
concrete runs reduce in the kernel). -/
def str_trim (s : String) : String :=
  String.mk
    (((s.data.dropWhile Char.isWhitespace).reverse.dropWhile
        Char.isWhitespace).reverse)

/-- Executable model of Rust's `str::starts_with` on string patterns. -/
def str_starts_with (s pre : String) : Bool :=
  pre.data.isPrefixOf s.data

/-- Mirror of `git_output`: spawn `git args`, record the call, and either
return the captured stdout or fail with the stage's error. -/
def git_output (args : List String) (result : Option String) (failure : Err) :
    Step String :=
  ([Event.git args],
   match result with
   | some out => Except.ok out
   | none => Except.error failure)

/-- Mirror of `clone_repository`: skip when the working-copy directory already
exists, otherwise run `git clone <ssh_url> <path>`. -/
def clone_repository (env : Env) : Step Unit :=
  if env.dir_exists then tret ()
  else
    tseq (git_output ["clone", env.repository.ssh_url, env.directory]
        env.git_clone Err.cloneFailed)
      (fun _ => tret ())

/-- Mirror of `ensure_branch`: read the current branch; when its trimmed name
already equals the plan's branch, do nothing more; otherwise hard-reset, check
out the default branch, pull with rebase, and create the plan's branch. -/
def ensure_branch (env : Env) : Step Unit :=
  tseq (git_output ["branch", "--show-current"] env.git_show_current
      Err.listBranchFailed) (fun output =>
    if str_trim output == env.plan.branch_name then tret ()
    else
      tseq (git_output ["reset", "--hard"] env.git_reset Err.resetFailed)
        (fun _ =>
      tseq (git_output ["checkout", env.repository.default_branch]
          env.git_checkout_default Err.checkoutDefaultFailed) (fun _ =>
      tseq (git_output ["pull", "-r"] env.git_pull Err.pullFailed) (fun _ =>
      tseq (git_output ["checkout", "-b", env.plan.branch_name]
          env.git_checkout_new Err.checkoutNewFailed) (fun _ =>
      tret ())))))

/-- Glob answer for a pattern string (a pattern never supplied behaves as
matching nothing). -/
def glob_lookup (env : Env) (pattern : String) : GlobOutcome :=
  ((env.glob_results.find? (fun e => e.1 == pattern)).map (fun e => e.2)).getD
    (GlobOutcome.entries [])

/-- The loop body of `list_files`: walk the glob iterator, abort on an entry
error, keep a path only when `entry.is_file()`. -/
def collect_files : List (Option GlobEntry) → Except Err (List String)
  | [] => Except.ok []
  | none :: _ => Except.error Err.globEntryFailed
  | some entry :: rest =>
    if entry.kind.is_file then
      (collect_files rest).map (fun files => entry.path :: files)
    else
      collect_files rest

/-- Mirror of `list_files`: glob `directory.join(pattern)` and keep only the
matches on which `is_file()` answers true. -/
def list_files (env : Env) (pattern : String) : Except Err (List String) :=
  match glob_lookup env (env.directory ++ "/" ++ pattern) with
  | GlobOutcome.patternError => Except.error Err.globPatternFailed
  | GlobOutcome.entries items => collect_files items

/-- The processor fold of `process_file`: each processor consumes the previous
processor's output, starting from the file's current text. -/
def run_processors (processors : List (String → String)) (text : String) :
    String :=
  processors.foldl (fun new_text processor => processor new_text) text

/-- Mirror of `process_file`: read the file as UTF-8 text, fold the operation's
processors over it, and overwrite the file exactly when the final text differs
from the original, reporting whether this file changed. -/
def process_file (env : Env) (fs : FS) (file : String)
    (operation : FileOperation) : FS × List Event × Except Err Bool :=
  match fs.read file with
  | none => (fs, [Event.fsRead file], Except.error Err.fileReadFailed)
  | some FileContent.invalid =>
    (fs, [Event.fsRead file], Except.error Err.fileReadFailed)
  | some (FileContent.utf8 old_text) =>
    let new_text := run_processors operation.processors old_text
    if old_text == new_text then
      (fs, [Event.fsRead file], Except.ok false)
    else if env.write_fails.contains file then
      (fs, [Event.fsRead file], Except.error Err.fileWriteFailed)
    else
      (fs.write file new_text,
       [Event.fsRead file, Event.fsWrite file new_text],
       Except.ok true)

/-- Mirror of `process_files`: `files_changed |= process_file(..)` over the
matched files, aborting on the first failing file. -/
def process_files (env : Env) (fs : FS) (files : List String)
    (operation : FileOperation) : FS × List Event × Except Err Bool :=
  match files with
  | [] => (fs, [], Except.ok false)
  | file :: rest =>
    match process_file env fs file operation with
    | (fs1, t1, Except.error e) => (fs1, t1, Except.error e)
    | (fs1, t1, Except.ok changed1) =>
      match process_files env fs1 rest operation with
      | (fs2, t2, Except.error e) => (fs2, t1 ++ t2, Except.error e)
      | (fs2, t2, Except.ok changed2) =>
        (fs2, t1 ++ t2, Except.ok (changed1 || changed2))

/-- Mirror of `process_operation`: expand the operation's glob, then process
the matched files. -/
def process_operation (env : Env) (fs : FS) (operation : FileOperation) :
    FS × List Event × Except Err Bool :=
  match list_files env operation.pattern with
  | Except.error e => (fs, [], Except.error e)
  | Except.ok files => process_files env fs files operation

/-- The loop of `process_operations` over an explicit operation list:
`files_changed |= process_operation(..)`, aborting on the first failure. -/
def process_operations_go (env : Env) (fs : FS)
    (operations : List FileOperation) : FS × List Event × Except Err Bool :=
  match operations with
  | [] => (fs, [], Except.ok false)
  | operation :: rest =>
    match process_operation env fs operation with
    | (fs1, t1, Except.error e) => (fs1, t1, Except.error e)
    | (fs1, t1, Except.ok changed1) =>
      match process_operations_go env fs1 rest with
      | (fs2, t2, Except.error e) => (fs2, t1 ++ t2, Except.error e)
      | (fs2, t2, Except.ok changed2) =>
        (fs2, t1 ++ t2, Except.ok (changed1 || changed2))

/-- Mirror of `process_operations`: fold over the plan's file operations. -/
def process_operations (env : Env) (fs : FS) :
    FS × List Event × Except Err Bool :=
  process_operations_go env fs env.plan.file_operations

/-- Mirror of `commit`: read the last commit message; when it starts with the
plan's message followed by a newline, skip; otherwise `git commit -a -m`. -/
def commit (env : Env) : Step Unit :=
  tseq (git_output ["log", "--format=%B", "-n", "1"] env.git_log Err.logFailed)
    (fun last_commit =>
      if str_starts_with last_commit (env.plan.git_message ++ "\n") then
        tret ()
      else
        tseq (git_output ["commit", "-a", "-m", env.plan.git_message]
            env.git_commit Err.commitFailed)
          (fun _ => tret ()))

/-- Mirror of `push`: always force-push the plan's branch with upstream
tracking. -/
def push (env : Env) : Step Unit :=
  tseq (git_output ["push", "-u", "-f", "origin", env.plan.branch_name]
      env.git_push Err.pushFailed)
    (fun _ => tret ())

/-- The provider query `is_pr_open(repository.name, plan.branch_name)`. -/
def is_pr_open (env : Env) : Step Bool :=
  ([Event.isPrOpenCall env.repository.name env.plan.branch_name],
   match env.pr_open with
   | some b => Except.ok b
   | none => Except.error Err.isPrOpenFailed)

/-- Mirror of `open_pr`: skip when a PR is already open for the branch,
otherwise open one with base = default branch, head = plan branch, title =
explicit plan title or else the commit message, body = the plan's body. -/
def open_pr (env : Env) : Step Unit :=
  tseq (is_pr_open env) (fun opened =>
    if opened then tret ()
    else
      ([Event.openPrCall env.repository.name env.repository.default_branch
          env.plan.branch_name
          (env.plan.pull_request_title.getD env.plan.git_message)
          env.plan.pull_request_body],
       if env.pr_create_ok then Except.ok () else Except.error Err.openPrFailed))

/-- Mirror of `process`: clone, reconcile the branch, process every file
operation, and only when some file changed commit, push and open the PR.
Returns the final filesystem, the full trace, and the outcome. -/
def process (env : Env) : FS × List Event × Except Err Unit :=
  match clone_repository env with
  | (t1, Except.error e) => (env.fs0, t1, Except.error e)
  | (t1, Except.ok _) =>
    match ensure_branch env with
    | (t2, Except.error e) => (env.fs0, t1 ++ t2, Except.error e)
    | (t2, Except.ok _) =>
      match process_operations env env.fs0 with
      | (fs1, t3, Except.error e) => (fs1, t1 ++ t2 ++ t3, Except.error e)
      | (fs1, t3, Except.ok false) => (fs1, t1 ++ t2 ++ t3, Except.ok ())
      | (fs1, t3, Except.ok true) =>
        match commit env with
        | (t4, Except.error e) => (fs1, t1 ++ t2 ++ t3 ++ t4, Except.error e)
        | (t4, Except.ok _) =>
          match push env with
          | (t5, Except.error e) =>
            (fs1, t1 ++ t2 ++ t3 ++ t4 ++ t5, Except.error e)
          | (t5, Except.ok _) =>
            match open_pr env with
            | (t6, r) => (fs1, t1 ++ t2 ++ t3 ++ t4 ++ t5 ++ t6, r)

/-! ## Event classification -/

/-- Is this event a `git commit` invocation? -/
def isCommitEvent : Event → Bool
  | Event.git ("commit" :: _) => true
  | _ => false

/-- Is this event a `git push` invocation? -/
def isPushEvent : Event → Bool
  | Event.git ("push" :: _) => true
  | _ => false

/-- Is this event a provider `open_pr` call? -/
def isOpenPrEvent : Event → Bool
  | Event.openPrCall _ _ _ _ _ => true
  | _ => false

/-- An event that is none of commit, push, or PR creation. -/
def noPublish (e : Event) : Bool :=
  !(isCommitEvent e || isPushEvent e || isOpenPrEvent e)

/-- Is this event a file read? -/
def isFsReadEvent : Event → Bool
  | Event.fsRead _ => true
  | _ => false

/-- Is this event a file read or write? -/
def isFsEvent : Event → Bool
  | Event.fsRead _ => true
  | Event.fsWrite _ _ => true
  | _ => false

/-- A read-only inspection step: the branch query or a file read. -/
def isReadOnlyEvent : Event → Bool
  | Event.git ["branch", "--show-current"] => true
  | Event.fsRead _ => true
  | _ => false

/-! ## Concrete environments for evaluating the pipeline -/

/-- A processor in the spirit of the repository's test fixture: rewrite the
Python boolean file content, leave anything else unchanged. -/
def sampleOperation : FileOperation :=
  { pattern := "*.py"
  , processors :=
      [fun text =>
        if text == "enabled = True" then "enabled = true" else text] }

/-- A concrete plan resembling `tests/fixtures/simple-plan.toml`. -/
def samplePlan : Plan :=
  { branch_name := "fix/booleans"
  , git_message := "Fix Python booleans"
  , pull_request_title := none
  , pull_request_body := some "Automated change"
  , file_operations := [sampleOperation] }

/-- A concrete repository value. -/
def sampleRepository : Repository :=
  { name := "repo-one"
  , ssh_url := "git@example.com:one.git"
  , default_branch := "main" }

/-- Baseline run: working copy exists, already on the plan branch, one
matched file that the processor changes, every external call succeeding, no
PR open yet. -/
def envBase : Env :=
  { plan := samplePlan
  , repository := sampleRepository
  , repositories_folder := "/work"
  , dir_exists := true
  , fs0 := ⟨[("file.py", FileContent.utf8 "enabled = True")]⟩
  , git_clone := some ""
  , git_show_current := some "fix/booleans\n"
  , git_reset := some ""
  , git_checkout_default := some ""
  , git_pull := some ""
  , git_checkout_new := some ""
  , git_log := some "Initial commit\n\n"
  , git_commit := some ""
  , git_push := some ""
  , glob_results :=
      [("/work/repos/repo-one/*.py",
        GlobOutcome.entries [some ⟨"file.py", GlobEntryKind.regular⟩])]
  , write_fails := []
  , pr_open := some false
  , pr_create_ok := true }

/-- Baseline, but the matched file already has the desired content, so no
processor changes anything. -/
def envNoop : Env :=
  { envBase with fs0 := ⟨[("file.py", FileContent.utf8 "enabled = true")]⟩ }

/-- Baseline, but the working copy is currently on `main`, not on the plan's
branch. -/
def envSwitch : Env :=
  { envBase with git_show_current := some "main" }

/-- On `main` and nothing to change: a no-op run that still reconciles the
branch first. -/
def envSwitchNoop : Env :=
  { envBase with
      git_show_current := some "main"
    , fs0 := ⟨[("file.py", FileContent.utf8 "enabled = true")]⟩ }

/-- Baseline, but the latest commit already starts with the plan's message. -/
def envSkipCommit : Env :=
  { envBase with git_log := some "Fix Python booleans\nDetails\n" }

/-- Baseline, but a pull request is already open for the branch. -/
def envPrOpen : Env :=
  { envBase with pr_open := some true }

/-- Glob answer containing a symlink that resolves to a regular file, a
directory, and a plain regular file. -/
def envSymlink : Env :=
  { envBase with
      glob_results :=
        [("/work/repos/repo-one/*.py",
          GlobOutcome.entries
            [some ⟨"link.py", GlobEntryKind.symlinkToFile⟩,
             some ⟨"subdir", GlobEntryKind.directory⟩,
             some ⟨"real.py", GlobEntryKind.regular⟩])]
    , fs0 :=
        ⟨[("link.py", FileContent.utf8 "enabled = true"),
          ("real.py", FileContent.utf8 "enabled = true")]⟩ }

/-- Two matched files: the first changes and is written, the second is not
valid UTF-8, so reading it fails after the first write happened. -/
def envTwoFiles : Env :=
  { envBase with
      glob_results :=
        [("/work/repos/repo-one/*.py",
          GlobOutcome.entries
            [some ⟨"a.py", GlobEntryKind.regular⟩,
             some ⟨"b.py", GlobEntryKind.regular⟩])]
    , fs0 :=
        ⟨[("a.py", FileContent.utf8 "enabled = True"),
          ("b.py", FileContent.invalid)]⟩ }

/-- A filesystem holding one non-UTF-8 file. -/
def invalidFS : FS := ⟨[("bad.py", FileContent.invalid)]⟩

/-! ## Filesystem lemmas -/

/-- Reading back a freshly written file yields the written text. -/
theorem FS.read_write_self (fs : FS) (p s : String) :
    (fs.write p s).read p = some (FileContent.utf8 s) := by
  simp [FS.read, FS.write, List.find?_cons]

/-- Writing one file leaves every other path unchanged. -/
theorem FS.read_write_ne (fs : FS) {p q : String} (s : String) (h : q ≠ p) :
    (fs.write p s).read q = fs.read q := by
  have hpq : (p == q) = false := by
    simp [Ne.symm h]
  simp [FS.read, FS.write, List.find?_cons, hpq]

/-! ## Trace lemmas for the pipeline stages -/

/-- Sequencing preserves a pointwise trace property. -/
theorem tseq_trace_all {α β : Type} (P : Event → Bool) (m : Step α)
    (f : α → Step β) (hm : m.1.all P = true)
    (hf : ∀ a, ((f a).1).all P = true) :
    ((tseq m f).1).all P = true := by
  unfold tseq
  cases h : m.2 <;> simp [List.all_append, hm, hf]

/-- Every event of the clone stage is the clone command itself. -/
theorem clone_repository_trace_all (env : Env) (P : Event → Bool)
    (h : P (Event.git ["clone", env.repository.ssh_url, env.directory]) =
      true) :
    ((clone_repository env).1).all P = true := by
  unfold clone_repository
  by_cases hd : env.dir_exists = true
  · simp [hd, tret]
  · have := tseq_trace_all P
      (git_output ["clone", env.repository.ssh_url, env.directory]
        env.git_clone Err.cloneFailed)
      (fun _ => tret ()) (by simp [git_output, h]) (fun _ => by simp [tret])
    simpa [hd] using this

/-- Every event of branch reconciliation is one of its five git commands. -/
theorem ensure_branch_trace_all (env : Env) (P : Event → Bool)
    (h1 : P (Event.git ["branch", "--show-current"]) = true)
    (h2 : P (Event.git ["reset", "--hard"]) = true)
    (h3 : P (Event.git ["checkout", env.repository.default_branch]) = true)
    (h4 : P (Event.git ["pull", "-r"]) = true)
    (h5 : P (Event.git ["checkout", "-b", env.plan.branch_name]) = true) :
    ((ensure_branch env).1).all P = true := by
  unfold ensure_branch
  refine tseq_trace_all P _ _ (by simp [git_output, h1]) (fun out => ?_)
  by_cases hb : str_trim out == env.plan.branch_name
  · simp [hb, tret]
  · simp only [if_neg hb]
    refine tseq_trace_all P _ _ (by simp [git_output, h2]) (fun _ => ?_)
    refine tseq_trace_all P _ _ (by simp [git_output, h3]) (fun _ => ?_)
    refine tseq_trace_all P _ _ (by simp [git_output, h4]) (fun _ => ?_)
    refine tseq_trace_all P _ _ (by simp [git_output, h5]) (fun _ => ?_)
    simp [tret]

/-- Every event of the commit stage is the log query or the commit command. -/
theorem commit_trace_all (env : Env) (P : Event → Bool)
    (h1 : P (Event.git ["log", "--format=%B", "-n", "1"]) = true)
    (h2 : P (Event.git ["commit", "-a", "-m", env.plan.git_message]) = true) :
    ((commit env).1).all P = true := by
  unfold commit
  refine tseq_trace_all P _ _ (by simp [git_output, h1]) (fun lc => ?_)
  by_cases hs : str_starts_with lc (env.plan.git_message ++ "\n") = true
  · simp [hs, tret]
  · have := tseq_trace_all P
      (git_output ["commit", "-a", "-m", env.plan.git_message] env.git_commit
        Err.commitFailed)
      (fun _ => tret ()) (by simp [git_output, h2]) (fun _ => by simp [tret])
    simpa [hs] using this

/-- The push stage emits only the push command. -/
theorem push_trace_all (env : Env) (P : Event → Bool)
    (h : P (Event.git ["push", "-u", "-f", "origin", env.plan.branch_name]) =
      true) :
    ((push env).1).all P = true := by
  unfold push
  exact tseq_trace_all P _ _ (by simp [git_output, h]) (fun _ => by simp [tret])

/-- The PR stage emits only the open-query and possibly the open-PR call. -/
theorem open_pr_trace_all (env : Env) (P : Event → Bool)
    (h1 : P (Event.isPrOpenCall env.repository.name env.plan.branch_name) =
      true)
    (h2 : P (Event.openPrCall env.repository.name
        env.repository.default_branch env.plan.branch_name
        (env.plan.pull_request_title.getD env.plan.git_message)
        env.plan.pull_request_body) = true) :
    ((open_pr env).1).all P = true := by
  unfold open_pr
  refine tseq_trace_all P _ _ (by simp [is_pr_open, h1]) (fun opened => ?_)
  cases opened with
  | true => simp [tret]
  | false => simp [h2]

/-- File processing of a single file emits only file reads and writes. -/
theorem process_file_trace_fs (env : Env) (fs : FS) (file : String)
    (operation : FileOperation) :
    ((process_file env fs file operation).2.1).all isFsEvent = true := by
  unfold process_file
  cases h : fs.read file with
  | none => simp [isFsEvent]
  | some c =>
    cases c with
    | invalid => simp [isFsEvent]
    | utf8 old_text =>
      by_cases he : old_text == run_processors operation.processors old_text
      · simp [he, isFsEvent]
      · by_cases hw : file ∈ env.write_fails
        · simp [he, hw, isFsEvent]
        · simp [he, hw, isFsEvent]

/-- File processing over a file list emits only file reads and writes. -/
theorem process_files_trace_fs (env : Env) (files : List String)
    (operation : FileOperation) :
    ∀ fs : FS,
      ((process_files env fs files operation).2.1).all isFsEvent = true := by
  induction files with
  | nil => intro fs; simp [process_files]
  | cons file rest ih =>
    intro fs
    unfold process_files
    rcases hpf : process_file env fs file operation with ⟨fs1, t1, r1⟩
    have h1 : t1.all isFsEvent = true := by
      have := process_file_trace_fs env fs file operation
      rw [hpf] at this
      exact this
    cases r1 with
    | error e => simpa using h1
    | ok changed1 =>
      rcases hr : process_files env fs1 rest operation with ⟨fs2, t2, r2⟩
      have h2 : t2.all isFsEvent = true := by
        have := ih fs1
        rw [hr] at this
        exact this
      cases r2 <;> simp [hr, List.all_append, h1, h2]

/-- A whole file operation emits only file reads and writes. -/
theorem process_operation_trace_fs (env : Env) (fs : FS)
    (operation : FileOperation) :
    ((process_operation env fs operation).2.1).all isFsEvent = true := by
  unfold process_operation
  cases h : list_files env operation.pattern with
  | error e => simp
  | ok files => exact process_files_trace_fs env files operation fs

/-- The whole file-processing stage emits only file reads and writes. -/
theorem process_operations_go_trace_fs (env : Env)
    (operations : List FileOperation) :
    ∀ fs : FS,
      ((process_operations_go env fs operations).2.1).all isFsEvent = true := by
  induction operations with
  | nil => intro fs; simp [process_operations_go]
  | cons operation rest ih =>
    intro fs
    unfold process_operations_go
    rcases hpo : process_operation env fs operation with ⟨fs1, t1, r1⟩
    have h1 : t1.all isFsEvent = true := by
      have := process_operation_trace_fs env fs operation
      rw [hpo] at this
      exact this
    cases r1 with
    | error e => simpa using h1
    | ok changed1 =>
      rcases hr : process_operations_go env fs1 rest with ⟨fs2, t2, r2⟩
      have h2 : t2.all isFsEvent = true := by
        have := ih fs1
        rw [hr] at this
        exact this
      cases r2 <;> simp [hr, List.all_append, h1, h2]

/-- The file-processing stage of `process` emits only file reads and writes. -/
theorem process_operations_trace_fs (env : Env) (fs : FS) :
    ((process_operations env fs).2.1).all isFsEvent = true :=
  process_operations_go_trace_fs env env.plan.file_operations fs

/-- A file event is never a commit, push, or PR creation. -/
theorem isFsEvent_noPublish (e : Event) (h : isFsEvent e = true) :
    noPublish e = true := by
  cases e <;> simp_all [isFsEvent, noPublish, isCommitEvent, isPushEvent,
    isOpenPrEvent]

/-! ## No-change runs leave the filesystem untouched -/

/-- A file reported unchanged is read, not written, and the filesystem is
returned as it was. -/
theorem process_file_ok_false (env : Env) (fs : FS) (file : String)
    (operation : FileOperation)
    (h : (process_file env fs file operation).2.2 = Except.ok false) :
    process_file env fs file operation =
      (fs, [Event.fsRead file], Except.ok false) := by
  unfold process_file at h ⊢
  cases hr : fs.read file with
  | none => rw [hr] at h; simp at h
  | some c =>
    cases c with
    | invalid => rw [hr] at h; simp at h
    | utf8 old_text =>
      rw [hr] at h
      by_cases he : old_text == run_processors operation.processors old_text
      · simp [he]
      · by_cases hw : file ∈ env.write_fails <;> simp [he, hw] at h

/-- When a whole file list reports no change, the filesystem is unchanged and
only reads happened. -/
theorem process_files_ok_false (env : Env) (files : List String)
    (operation : FileOperation) :
    ∀ fs : FS, (process_files env fs files operation).2.2 = Except.ok false →
      (process_files env fs files operation).1 = fs ∧
      ((process_files env fs files operation).2.1).all isFsReadEvent = true := by
  induction files with
  | nil => intro fs _; simp [process_files]
  | cons file rest ih =>
    intro fs h
    rcases hpf : process_file env fs file operation with ⟨fs1, t1, r1⟩
    cases r1 with
    | error e => unfold process_files at h; simp [hpf] at h
    | ok changed1 =>
      rcases hr : process_files env fs1 rest operation with ⟨fs2, t2, r2⟩
      cases r2 with
      | error e => unfold process_files at h; simp [hpf, hr] at h
      | ok changed2 =>
        have hb : changed1 = false ∧ changed2 = false := by
          unfold process_files at h
          simp only [hpf, hr] at h
          simpa using h
        obtain ⟨hc1, hc2⟩ := hb
        rw [hc1] at hpf
        rw [hc2] at hr
        have hshape := process_file_ok_false env fs file operation
          (by rw [hpf])
        have hcomp := hpf.symm.trans hshape
        have hfs1 : fs1 = fs := congrArg Prod.fst hcomp
        have ht1 : t1 = [Event.fsRead file] :=
          congrArg (fun p => p.2.1) hcomp
        have hrest := ih fs1
        rw [hr] at hrest
        obtain ⟨hfs2, ht2⟩ := hrest rfl
        simp only at hfs2 ht2
        unfold process_files
        simp only [hpf, hr]
        exact ⟨by simp [hfs2, hfs1],
          by simp [List.all_append, ht1, isFsReadEvent, ht2]⟩

/-- When one operation reports no change, the filesystem is unchanged and only
reads happened. -/
theorem process_operation_ok_false (env : Env) (fs : FS)
    (operation : FileOperation)
    (h : (process_operation env fs operation).2.2 = Except.ok false) :
    (process_operation env fs operation).1 = fs ∧
    ((process_operation env fs operation).2.1).all isFsReadEvent = true := by
  unfold process_operation at h ⊢
  cases hl : list_files env operation.pattern with
  | error e => rw [hl] at h; simp at h
  | ok files =>
    rw [hl] at h
    have h' : (process_files env fs files operation).2.2 = Except.ok false := h
    exact process_files_ok_false env files operation fs h'

/-- When the whole processing stage reports no change, the filesystem is
unchanged and only reads happened. -/
theorem process_operations_go_ok_false (env : Env)
    (operations : List FileOperation) :
    ∀ fs : FS, (process_operations_go env fs operations).2.2 = Except.ok false →
      (process_operations_go env fs operations).1 = fs ∧
      ((process_operations_go env fs operations).2.1).all isFsReadEvent =
        true := by
  induction operations with
  | nil => intro fs _; simp [process_operations_go]
  | cons operation rest ih =>
    intro fs h
    rcases hpo : process_operation env fs operation with ⟨fs1, t1, r1⟩
    cases r1 with
    | error e => unfold process_operations_go at h; simp [hpo] at h
    | ok changed1 =>
      rcases hr : process_operations_go env fs1 rest with ⟨fs2, t2, r2⟩
      cases r2 with
      | error e =>
        unfold process_operations_go at h; simp [hpo, hr] at h
      | ok changed2 =>
        have hb : changed1 = false ∧ changed2 = false := by
          unfold process_operations_go at h
          simp only [hpo, hr] at h
          simpa using h
        obtain ⟨hc1, hc2⟩ := hb
        rw [hc1] at hpo
        rw [hc2] at hr
        have hfirst := process_operation_ok_false env fs operation
          (by rw [hpo])
        rw [hpo] at hfirst
        obtain ⟨hfs1, ht1⟩ := hfirst
        simp only at hfs1 ht1
        have hrest := ih fs1
        rw [hr] at hrest
        obtain ⟨hfs2, ht2⟩ := hrest rfl
        simp only at hfs2 ht2
        unfold process_operations_go
        simp only [hpo, hr]
        exact ⟨by simp [hfs2, hfs1],
          by simp [List.all_append, ht1, ht2]⟩

/-- No-change conclusion lifted to `process_operations`. -/
theorem process_operations_ok_false (env : Env) (fs : FS)
    (h : (process_operations env fs).2.2 = Except.ok false) :
    (process_operations env fs).1 = fs ∧
    ((process_operations env fs).2.1).all isFsReadEvent = true :=
  process_operations_go_ok_false env env.plan.file_operations fs h

/-! ## Shapes of the individual pipeline stages -/

/-- When the working-copy directory exists, the clone stage does nothing. -/
theorem clone_repository_skip (env : Env) (h : env.dir_exists = true) :
    clone_repository env = ([], Except.ok ()) := by
  simp [clone_repository, h, tret]

/-- When the trimmed current branch equals the plan's branch, reconciliation
performs only the read-only branch query. -/
theorem ensure_branch_noop (env : Env) (out : String)
    (hcur : env.git_show_current = some out)
    (hbr : str_trim out = env.plan.branch_name) :
    ensure_branch env =
      ([Event.git ["branch", "--show-current"]], Except.ok ()) := by
  unfold ensure_branch
  simp [git_output, hcur, tseq, hbr, tret]

/-- When the current branch differs, reconciliation performs reset, checkout
of the default branch, pull with rebase, and branch creation, in this order. -/
theorem ensure_branch_switch (env : Env) (out o1 o2 o3 o4 : String)
    (hcur : env.git_show_current = some out)
    (hbr : str_trim out ≠ env.plan.branch_name)
    (h1 : env.git_reset = some o1)
    (h2 : env.git_checkout_default = some o2)
    (h3 : env.git_pull = some o3)
    (h4 : env.git_checkout_new = some o4) :
    ensure_branch env =
      ([Event.git ["branch", "--show-current"],
        Event.git ["reset", "--hard"],
        Event.git ["checkout", env.repository.default_branch],
        Event.git ["pull", "-r"],
        Event.git ["checkout", "-b", env.plan.branch_name]],
       Except.ok ()) := by
  unfold ensure_branch
  simp [git_output, hcur, h1, h2, h3, h4, tseq, tret, hbr]

/-- When the last commit message starts with the plan's message plus newline,
the commit stage performs only the log query. -/
theorem commit_skip (env : Env) (last_commit : String)
    (hlog : env.git_log = some last_commit)
    (hpre : str_starts_with last_commit (env.plan.git_message ++ "\n") =
      true) :
    commit env =
      ([Event.git ["log", "--format=%B", "-n", "1"]], Except.ok ()) := by
  unfold commit
  simp [git_output, hlog, tseq, hpre, tret]

/-- Otherwise the commit stage runs `git commit -a -m <message>`. -/
theorem commit_runs (env : Env) (last_commit out : String)
    (hlog : env.git_log = some last_commit)
    (hpre : str_starts_with last_commit (env.plan.git_message ++ "\n") =
      false)
    (hcommit : env.git_commit = some out) :
    commit env =
      ([Event.git ["log", "--format=%B", "-n", "1"],
        Event.git ["commit", "-a", "-m", env.plan.git_message]],
       Except.ok ()) := by
  unfold commit
  simp [git_output, hlog, tseq, hpre, hcommit, tret]

/-- A successful push stage emits exactly the force-push command. -/
theorem push_ok (env : Env) (out : String) (h : env.git_push = some out) :
    push env =
      ([Event.git ["push", "-u", "-f", "origin", env.plan.branch_name]],
       Except.ok ()) := by
  unfold push
  simp [git_output, h, tseq, tret]

/-- When a PR is already open, the PR stage performs only the query. -/
theorem open_pr_skip (env : Env) (h : env.pr_open = some true) :
    open_pr env =
      ([Event.isPrOpenCall env.repository.name env.plan.branch_name],
       Except.ok ()) := by
  unfold open_pr is_pr_open
  simp [h, tseq, tret]

/-- When no PR is open, the PR stage queries once and calls `open_pr` exactly
once, with base = default branch, head = plan branch, title = explicit title
or else the commit message, body = the plan's body. -/
theorem open_pr_creates (env : Env) (h : env.pr_open = some false) :
    open_pr env =
      ([Event.isPrOpenCall env.repository.name env.plan.branch_name,
        Event.openPrCall env.repository.name env.repository.default_branch
          env.plan.branch_name
          (env.plan.pull_request_title.getD env.plan.git_message)
          env.plan.pull_request_body],
       if env.pr_create_ok then Except.ok ()
       else Except.error Err.openPrFailed) := by
  unfold open_pr is_pr_open
  simp [h, tseq, tret]

/-! ## Composition of `process` from its stages -/

/-- Early exit: when file processing reports no change after successful clone
and reconciliation, `process` stops there with `Ok`. -/
theorem process_early_exit (env : Env) (t1 t2 : List Event) (fs1 : FS)
    (t3 : List Event)
    (hclone : clone_repository env = (t1, Except.ok ()))
    (hbranch : ensure_branch env = (t2, Except.ok ()))
    (hops : process_operations env env.fs0 = (fs1, t3, Except.ok false)) :
    process env = (fs1, t1 ++ t2 ++ t3, Except.ok ()) := by
  unfold process
  simp only [hclone, hbranch, hops]

/-- Error exit: a failure during file processing aborts `process` there. -/
theorem process_ops_error (env : Env) (t1 t2 : List Event) (fs1 : FS)
    (t3 : List Event) (e : Err)
    (hclone : clone_repository env = (t1, Except.ok ()))
    (hbranch : ensure_branch env = (t2, Except.ok ()))
    (hops : process_operations env env.fs0 = (fs1, t3, Except.error e)) :
    process env = (fs1, t1 ++ t2 ++ t3, Except.error e) := by
  unfold process
  simp only [hclone, hbranch, hops]

/-- Publish path: when a change was made, `process` runs commit, push and the
PR stage in order. -/
theorem process_publish (env : Env) (t1 t2 t4 t5 t6 : List Event) (fs1 : FS)
    (t3 : List Event) (r : Except Err Unit)
    (hclone : clone_repository env = (t1, Except.ok ()))
    (hbranch : ensure_branch env = (t2, Except.ok ()))
    (hops : process_operations env env.fs0 = (fs1, t3, Except.ok true))
    (hcommit : commit env = (t4, Except.ok ()))
    (hpush : push env = (t5, Except.ok ()))
    (hpr : open_pr env = (t6, r)) :
    process env = (fs1, t1 ++ t2 ++ t3 ++ t4 ++ t5 ++ t6, r) := by
  unfold process
  simp only [hclone, hbranch, hops, hcommit, hpush, hpr]

/-! ## Glob soundness and PR-stage helpers -/

/-- Every path kept by the glob loop comes from a yielded entry on which
`is_file()` answered true. -/
theorem collect_files_sound (items : List (Option GlobEntry)) :
    ∀ files : List String, collect_files items = Except.ok files →
      ∀ f ∈ files, ∃ entry : GlobEntry, some entry ∈ items ∧
        entry.path = f ∧ entry.kind.is_file = true := by
  induction items with
  | nil =>
    intro files h f hf
    simp [collect_files] at h
    subst h
    simp at hf
  | cons item rest ih =>
    intro files h f hf
    cases item with
    | none => simp [collect_files] at h
    | some entry =>
      by_cases hk : entry.kind.is_file = true
      · unfold collect_files at h
        rw [if_pos hk] at h
        cases hrest : collect_files rest with
        | error e => rw [hrest] at h; simp [Except.map] at h
        | ok tail =>
          rw [hrest] at h
          simp [Except.map] at h
          subst h
          rcases List.mem_cons.mp hf with hhead | htail
          · exact ⟨entry, by simp, hhead.symm, hk⟩
          · obtain ⟨e, he, hp, hkk⟩ := ih tail hrest f htail
            exact ⟨e, by simp [he], hp, hkk⟩
      · unfold collect_files at h
        rw [if_neg hk] at h
        obtain ⟨e, he, hp, hkk⟩ := ih files h f hf
        exact ⟨e, by simp [he], hp, hkk⟩

/-- The PR stage always performs the `is_pr_open` query. -/
theorem open_pr_query_mem (env : Env) :
    Event.isPrOpenCall env.repository.name env.plan.branch_name ∈
      (open_pr env).1 := by
  unfold open_pr is_pr_open tseq
  cases h : env.pr_open with
  | none => simp
  | some b => cases b <;> simp [tret]

/-! ## Claims -/

/-- Claim C5: for a file operation with processors `[A, B]` applied to input
`x`, the chain folded by `process_file` computes `B (A x)` — processors are
applied strictly in list order, each consuming the previous output, never
`A (B x)`. -/
theorem C5_processor_ordering (A B : String → String) (x : String) :
    run_processors [A, B] x = B (A x) := rfl

/-- Claim C6: a matched file whose content is valid UTF-8 is overwritten with
the chain's final text exactly when that text differs from the original; when
they are identical no write occurs and the file does not count as changed,
and when they differ the whole file is replaced and the file counts as
changed. -/
theorem C6_write_iff_changed (env : Env) (fs : FS) (file : String)
    (operation : FileOperation) (old_text : String)
    (hread : fs.read file = some (FileContent.utf8 old_text))
    (hw : env.write_fails.contains file = false) :
    (run_processors operation.processors old_text = old_text →
      process_file env fs file operation =
        (fs, [Event.fsRead file], Except.ok false)) ∧
    (run_processors operation.processors old_text ≠ old_text →
      process_file env fs file operation =
        (fs.write file (run_processors operation.processors old_text),
         [Event.fsRead file,
          Event.fsWrite file (run_processors operation.processors old_text)],
         Except.ok true)) := by
  unfold process_file
  rw [hread]
  constructor
  · intro hsame
    simp [hsame]
  · intro hdiff
    have hne : (old_text == run_processors operation.processors old_text) =
        false := by
      simp [Ne.symm hdiff]
    simp [hne, hw]
    simpa using hw

/-- Claim C9: a matched file whose on-disk bytes are not valid UTF-8 makes
`process_file` fail before any transform runs, with the filesystem unchanged
and no write performed; the error aborts the repository's run. -/
theorem C9_invalid_utf8_fails (env : Env) (fs : FS) (file : String)
    (operation : FileOperation)
    (hread : fs.read file = some FileContent.invalid) :
    process_file env fs file operation =
      (fs, [Event.fsRead file], Except.error Err.fileReadFailed) := by
  unfold process_file
  rw [hread]

/-- Claim C7: branch reconciliation is a no-op when the trimmed current
branch already equals the plan's branch (no reset, checkout, or pull);
otherwise it performs, in this exact order, a hard reset, a checkout of the
default branch, a pull with rebase, and the creation of the plan's branch. -/
theorem C7_branch_reconciliation (env : Env) (current : String)
    (hcur : env.git_show_current = some current) :
    (str_trim current = env.plan.branch_name →
      ensure_branch env =
        ([Event.git ["branch", "--show-current"]], Except.ok ())) ∧
    (str_trim current ≠ env.plan.branch_name →
      ∀ o1 o2 o3 o4 : String,
        env.git_reset = some o1 →
        env.git_checkout_default = some o2 →
        env.git_pull = some o3 →
        env.git_checkout_new = some o4 →
        ensure_branch env =
          ([Event.git ["branch", "--show-current"],
            Event.git ["reset", "--hard"],
            Event.git ["checkout", env.repository.default_branch],
            Event.git ["pull", "-r"],
            Event.git ["checkout", "-b", env.plan.branch_name]],
           Except.ok ())) :=
  ⟨fun h => ensure_branch_noop env current hcur h,
   fun h o1 o2 o3 o4 h1 h2 h3 h4 =>
     ensure_branch_switch env current o1 o2 o3 o4 hcur h h1 h2 h3 h4⟩

/-- Claim C4: at the PR stage, when `is_pr_open` answers true no `open_pr`
call happens; when it answers false, `open_pr` is called exactly once with
base = the repository's default branch, head = the plan's branch, title = the
explicit plan title or else the commit message, and body = the plan's
optional body. -/
theorem C4_pr_stage (env : Env) :
    (env.pr_open = some true →
      open_pr env =
        ([Event.isPrOpenCall env.repository.name env.plan.branch_name],
         Except.ok ())) ∧
    (env.pr_open = some false →
      (open_pr env).1 =
        [Event.isPrOpenCall env.repository.name env.plan.branch_name,
         Event.openPrCall env.repository.name env.repository.default_branch
           env.plan.branch_name
           (env.plan.pull_request_title.getD env.plan.git_message)
           env.plan.pull_request_body]) :=
  ⟨fun h => open_pr_skip env h, fun h => by rw [open_pr_creates env h]⟩

/-- Claim C8 (amended): the glob matcher returns only paths on which
`is_file()` answers true — directories, symlinks to directories and broken
symlinks are excluded; since `is_file()` traverses symlinks, a symlink that
resolves to a regular file is included, not filtered out. -/
theorem C8_glob_file_filter (env : Env) (pattern : String)
    (items : List (Option GlobEntry)) (files : List String)
    (hglob : glob_lookup env (env.directory ++ "/" ++ pattern) =
      GlobOutcome.entries items)
    (h : list_files env pattern = Except.ok files) :
    ∀ f ∈ files, ∃ entry : GlobEntry, some entry ∈ items ∧
      entry.path = f ∧ entry.kind.is_file = true := by
  unfold list_files at h
  rw [hglob] at h
  exact collect_files_sound items files h

/-- Claim C1: when every processor chain leaves every matched file unchanged
(the processing stage answers `false`), `process` returns `Ok` right after
file processing, and its whole trace contains no commit, no push, and no
PR-open call. -/
theorem C1_early_exit_no_publish (env : Env) (t1 t2 : List Event) (fs1 : FS)
    (t3 : List Event)
    (hclone : clone_repository env = (t1, Except.ok ()))
    (hbranch : ensure_branch env = (t2, Except.ok ()))
    (hops : process_operations env env.fs0 = (fs1, t3, Except.ok false)) :
    process env = (fs1, t1 ++ t2 ++ t3, Except.ok ()) ∧
    ((process env).2.1).all noPublish = true := by
  have hp := process_early_exit env t1 t2 fs1 t3 hclone hbranch hops
  refine ⟨hp, ?_⟩
  rw [hp]
  have h1 : t1.all noPublish = true := by
    have := clone_repository_trace_all env noPublish rfl
    rw [hclone] at this
    exact this
  have h2 : t2.all noPublish = true := by
    have := ensure_branch_trace_all env noPublish rfl rfl rfl rfl rfl
    rw [hbranch] at this
    exact this
  have h3 : t3.all noPublish = true := by
    have hfs := process_operations_trace_fs env env.fs0
    rw [hops] at hfs
    simp only at hfs
    rw [List.all_eq_true] at hfs ⊢
    intro x hx
    exact isFsEvent_noPublish x (hfs x hx)
  simp [List.all_append, h1, h2, h3]

/-- Claim C2 (amended): a run in which no processor chain changes any matched
file leaves the filesystem byte-for-byte untouched and makes no mutating
call, provided the working copy already exists and is already checked out on
the plan's branch: the trace is exactly the read-only branch query followed
by file reads. -/
theorem C2_noop_run_read_only (env : Env) (current : String) (fs1 : FS)
    (t3 : List Event)
    (hdir : env.dir_exists = true)
    (hcur : env.git_show_current = some current)
    (hbr : str_trim current = env.plan.branch_name)
    (hops : process_operations env env.fs0 = (fs1, t3, Except.ok false)) :
    process env =
      (env.fs0, Event.git ["branch", "--show-current"] :: t3,
       Except.ok ()) ∧
    t3.all isFsReadEvent = true := by
  have hc := clone_repository_skip env hdir
  have hb := ensure_branch_noop env current hcur hbr
  have hnc := process_operations_ok_false env env.fs0 (by rw [hops])
  rw [hops] at hnc
  simp only at hnc
  obtain ⟨hfs1, ht3⟩ := hnc
  have hp := process_early_exit env [] [Event.git ["branch", "--show-current"]]
    fs1 t3 hc hb hops
  rw [hfs1] at hp
  exact ⟨by simpa using hp, ht3⟩

/-- Claim C3: when the run reaches the commit stage and the latest commit
message already begins with the plan's commit message as its first line, no
`git commit` command is run, while the push command and the PR-open query
still execute afterwards. -/
theorem C3_commit_skipped_push_pr_proceed (env : Env) (t1 t2 : List Event)
    (fs1 : FS) (t3 : List Event) (last_commit push_out : String)
    (hclone : clone_repository env = (t1, Except.ok ()))
    (hbranch : ensure_branch env = (t2, Except.ok ()))
    (hops : process_operations env env.fs0 = (fs1, t3, Except.ok true))
    (hlog : env.git_log = some last_commit)
    (hpre : str_starts_with last_commit (env.plan.git_message ++ "\n") = true)
    (hpush : env.git_push = some push_out) :
    ((process env).2.1).all (fun e => !isCommitEvent e) = true ∧
    Event.git ["push", "-u", "-f", "origin", env.plan.branch_name] ∈
      (process env).2.1 ∧
    Event.isPrOpenCall env.repository.name env.plan.branch_name ∈
      (process env).2.1 := by
  have hcommit := commit_skip env last_commit hlog hpre
  have hpushl := push_ok env push_out hpush
  rcases hpr : open_pr env with ⟨t6, r⟩
  have hp := process_publish env t1 t2 _ _ t6 fs1 t3 r hclone hbranch hops
    hcommit hpushl hpr
  rw [hp]
  have h1 : t1.all (fun e => !isCommitEvent e) = true := by
    have := clone_repository_trace_all env (fun e => !isCommitEvent e) rfl
    rw [hclone] at this
    exact this
  have h2 : t2.all (fun e => !isCommitEvent e) = true := by
    have := ensure_branch_trace_all env (fun e => !isCommitEvent e)
      rfl rfl rfl rfl rfl
    rw [hbranch] at this
    exact this
  have h3 : t3.all (fun e => !isCommitEvent e) = true := by
    have hfs := process_operations_trace_fs env env.fs0
    rw [hops] at hfs
    simp only at hfs
    rw [List.all_eq_true] at hfs ⊢
    intro x hx
    have := hfs x hx
    cases x <;> simp_all [isFsEvent, isCommitEvent]
  have h6 : t6.all (fun e => !isCommitEvent e) = true := by
    have := open_pr_trace_all env (fun e => !isCommitEvent e) rfl rfl
    rw [hpr] at this
    exact this
  have h6q : Event.isPrOpenCall env.repository.name env.plan.branch_name ∈
      t6 := by
    have := open_pr_query_mem env
    rw [hpr] at this
    exact this
  refine ⟨?_, ?_, ?_⟩
  · simp only [List.all_append, Bool.and_eq_true]
    refine ⟨⟨⟨⟨⟨h1, h2⟩, h3⟩, ?_⟩, ?_⟩, h6⟩ <;> rfl
  · simp [List.mem_append]
  · simp [List.mem_append, h6q]

/-- Claim C10: file processing is not atomic — when a later matched file
fails to read after an earlier file was already rewritten, the run aborts
with an error, the earlier write stays on disk, and no commit, push, or
PR-open call happens. -/
theorem C10_no_rollback (env : Env) (current old_text : String)
    (operation : FileOperation) (file1 file2 : String)
    (hdir : env.dir_exists = true)
    (hcur : env.git_show_current = some current)
    (hbr : str_trim current = env.plan.branch_name)
    (hplan : env.plan.file_operations = [operation])
    (hglob : glob_lookup env (env.directory ++ "/" ++ operation.pattern) =
      GlobOutcome.entries
        [some ⟨file1, GlobEntryKind.regular⟩,
         some ⟨file2, GlobEntryKind.regular⟩])
    (hne : file2 ≠ file1)
    (hread1 : env.fs0.read file1 = some (FileContent.utf8 old_text))
    (hchanged : run_processors operation.processors old_text ≠ old_text)
    (hw1 : env.write_fails.contains file1 = false)
    (hread2 : env.fs0.read file2 = some FileContent.invalid) :
    (process env).2.2 = Except.error Err.fileReadFailed ∧
    (process env).1.read file1 =
      some (FileContent.utf8 (run_processors operation.processors old_text)) ∧
    ((process env).2.1).all noPublish = true := by
  have hlist : list_files env operation.pattern =
      Except.ok [file1, file2] := by
    unfold list_files
    rw [hglob]
    simp [collect_files, GlobEntryKind.is_file, Except.map]
  have hpf1 : process_file env env.fs0 file1 operation =
      (env.fs0.write file1 (run_processors operation.processors old_text),
       [Event.fsRead file1,
        Event.fsWrite file1 (run_processors operation.processors old_text)],
       Except.ok true) := by
    unfold process_file
    rw [hread1]
    have hne1 : (old_text == run_processors operation.processors old_text) =
        false := by
      simp [Ne.symm hchanged]
    simp [hne1, hw1]
    simpa using hw1
  have hread2' :
      (env.fs0.write file1
          (run_processors operation.processors old_text)).read file2 =
        some FileContent.invalid := by
    rw [FS.read_write_ne env.fs0 _ hne]
    exact hread2
  have hpf2 : process_file env
      (env.fs0.write file1 (run_processors operation.processors old_text))
      file2 operation =
      (env.fs0.write file1 (run_processors operation.processors old_text),
       [Event.fsRead file2], Except.error Err.fileReadFailed) := by
    unfold process_file
    rw [hread2']
  have hpfs : process_files env env.fs0 [file1, file2] operation =
      (env.fs0.write file1 (run_processors operation.processors old_text),
       [Event.fsRead file1,
        Event.fsWrite file1 (run_processors operation.processors old_text),
        Event.fsRead file2],
       Except.error Err.fileReadFailed) := by
    unfold process_files
    simp only [hpf1]
    unfold process_files
    simp only [hpf2]
    rfl
  have hop : process_operation env env.fs0 operation =
      (env.fs0.write file1 (run_processors operation.processors old_text),
       [Event.fsRead file1,
        Event.fsWrite file1 (run_processors operation.processors old_text),
        Event.fsRead file2],
       Except.error Err.fileReadFailed) := by
    unfold process_operation
    rw [hlist]
    exact hpfs
  have hops : process_operations env env.fs0 =
      (env.fs0.write file1 (run_processors operation.processors old_text),
       [Event.fsRead file1,
        Event.fsWrite file1 (run_processors operation.processors old_text),
        Event.fsRead file2],
       Except.error Err.fileReadFailed) := by
    unfold process_operations
    rw [hplan]
    unfold process_operations_go
    simp only [hop]
  have hp := process_ops_error env [] [Event.git ["branch", "--show-current"]]
    _ _ _ (clone_repository_skip env hdir)
    (ensure_branch_noop env current hcur hbr) hops
  rw [hp]
  refine ⟨rfl, FS.read_write_self env.fs0 file1 _, ?_⟩
  simp [noPublish, isCommitEvent, isPushEvent, isOpenPrEvent]

/-! ## Witnesses and counterexamples on concrete runs -/

/-- Witness for C1 at a concrete no-op run. -/
theorem C1_witness :
    process envNoop =
      (envNoop.fs0,
       [] ++ [Event.git ["branch", "--show-current"]] ++
         [Event.fsRead "file.py"],
       Except.ok ()) ∧
    ((process envNoop).2.1).all noPublish = true :=
  C1_early_exit_no_publish envNoop [] [Event.git ["branch", "--show-current"]]
    envNoop.fs0 [Event.fsRead "file.py"] (by decide) (by decide) (by decide)

/-- Witness for C2 at a concrete no-op run already on the plan branch. -/
theorem C2_witness :
    process envNoop =
      (envNoop.fs0,
       Event.git ["branch", "--show-current"] :: [Event.fsRead "file.py"],
       Except.ok ()) ∧
    ([Event.fsRead "file.py"] : List Event).all isFsReadEvent = true :=
  C2_noop_run_read_only envNoop "fix/booleans\n" envNoop.fs0
    [Event.fsRead "file.py"] (by decide) (by decide) (by decide) (by decide)

/-- Counterexample to C2 as stated: a run in which no processor chain changes
any matched file, yet the trace contains a hard reset, a checkout, a pull,
and a branch creation, because reconciliation runs before file processing
whenever the current branch differs from the plan's branch. -/
theorem C2_counterexample :
    (process_operations envSwitchNoop envSwitchNoop.fs0).2.2 =
      Except.ok false ∧
    Event.git ["reset", "--hard"] ∈ (process envSwitchNoop).2.1 ∧
    Event.git ["checkout", "main"] ∈ (process envSwitchNoop).2.1 ∧
    Event.git ["pull", "-r"] ∈ (process envSwitchNoop).2.1 ∧
    Event.git ["checkout", "-b", "fix/booleans"] ∈
      (process envSwitchNoop).2.1 := by
  decide

/-- Witness for C3 at a concrete run whose latest commit already carries the
plan's message. -/
theorem C3_witness :
    ((process envSkipCommit).2.1).all (fun e => !isCommitEvent e) = true ∧
    Event.git ["push", "-u", "-f", "origin", "fix/booleans"] ∈
      (process envSkipCommit).2.1 ∧
    Event.isPrOpenCall "repo-one" "fix/booleans" ∈
      (process envSkipCommit).2.1 :=
  C3_commit_skipped_push_pr_proceed envSkipCommit []
    [Event.git ["branch", "--show-current"]]
    (envSkipCommit.fs0.write "file.py" "enabled = true")
    [Event.fsRead "file.py", Event.fsWrite "file.py" "enabled = true"]
    "Fix Python booleans\nDetails\n" "" (by decide) (by decide) (by decide)
    (by decide) (by decide) (by decide)

/-- Witness for C4: with a PR already open only the query happens; with none
open the PR is opened with the documented arguments. -/
theorem C4_witness :
    open_pr envPrOpen =
      ([Event.isPrOpenCall "repo-one" "fix/booleans"], Except.ok ()) ∧
    (open_pr envBase).1 =
      [Event.isPrOpenCall "repo-one" "fix/booleans",
       Event.openPrCall "repo-one" "main" "fix/booleans"
         "Fix Python booleans" (some "Automated change")] :=
  ⟨(C4_pr_stage envPrOpen).1 (by decide), (C4_pr_stage envBase).2 (by decide)⟩

/-- Witness for C6 at a concrete file the processor changes. -/
theorem C6_witness :
    process_file envBase envBase.fs0 "file.py" sampleOperation =
      (envBase.fs0.write "file.py"
        (run_processors sampleOperation.processors "enabled = True"),
       [Event.fsRead "file.py",
        Event.fsWrite "file.py"
          (run_processors sampleOperation.processors "enabled = True")],
       Except.ok true) :=
  (C6_write_iff_changed envBase envBase.fs0 "file.py" sampleOperation
    "enabled = True" (by decide) (by decide)).2 (by decide)

/-- Witness for C7 at a concrete run currently on `main`. -/
theorem C7_witness :
    ensure_branch envSwitch =
      ([Event.git ["branch", "--show-current"],
        Event.git ["reset", "--hard"],
        Event.git ["checkout", "main"],
        Event.git ["pull", "-r"],
        Event.git ["checkout", "-b", "fix/booleans"]], Except.ok ()) :=
  (C7_branch_reconciliation envSwitch "main" (by decide)).2 (by decide)
    "" "" "" "" (by decide) (by decide) (by decide) (by decide)

/-- Witness for C8 (amended) at a concrete glob answer. -/
theorem C8_witness :
    ∃ entry : GlobEntry,
      some entry ∈
        [some (⟨"link.py", GlobEntryKind.symlinkToFile⟩ : GlobEntry),
         some ⟨"subdir", GlobEntryKind.directory⟩,
         some ⟨"real.py", GlobEntryKind.regular⟩] ∧
      entry.path = "real.py" ∧ entry.kind.is_file = true :=
  C8_glob_file_filter envSymlink "*.py"
    [some ⟨"link.py", GlobEntryKind.symlinkToFile⟩,
     some ⟨"subdir", GlobEntryKind.directory⟩,
     some ⟨"real.py", GlobEntryKind.regular⟩]
    ["link.py", "real.py"] (by decide) (by decide) "real.py" (by decide)

/-- Counterexample to C8 as stated: the directory match is excluded, but the
symlink resolving to a regular file is returned by `list_files`, so symlinked
matches are not filtered out. -/
theorem C8_counterexample :
    glob_lookup envSymlink (envSymlink.directory ++ "/" ++ "*.py") =
      GlobOutcome.entries
        [some ⟨"link.py", GlobEntryKind.symlinkToFile⟩,
         some ⟨"subdir", GlobEntryKind.directory⟩,
         some ⟨"real.py", GlobEntryKind.regular⟩] ∧
    list_files envSymlink "*.py" = Except.ok ["link.py", "real.py"] := by
  decide

/-- Witness for C9 at a concrete non-UTF-8 file. -/
theorem C9_witness :
    process_file envBase invalidFS "bad.py" sampleOperation =
      (invalidFS, [Event.fsRead "bad.py"],
       Except.error Err.fileReadFailed) :=
  C9_invalid_utf8_fails envBase invalidFS "bad.py" sampleOperation (by decide)

/-- Witness for C10 at a concrete run where `a.py` is rewritten before
`b.py` fails to read. -/
theorem C10_witness :
    (process envTwoFiles).2.2 = Except.error Err.fileReadFailed ∧
    (process envTwoFiles).1.read "a.py" =
      some (FileContent.utf8
        (run_processors sampleOperation.processors "enabled = True")) ∧
    ((process envTwoFiles).2.1).all noPublish = true :=
  C10_no_rollback envTwoFiles "fix/booleans\n" "enabled = True"
    sampleOperation "a.py" "b.py" (by decide) (by decide) (by decide) rfl
    (by decide) (by decide) (by decide) (by decide) (by decide) (by decide)
